import Mathlib

/-!
Verification of `circuit_training/learning/train_ppo_lib.py` against its
specification.  The Python fragment is shallowly embedded: Python `int`s
become `Int`, Python exceptions become explicit error values, and the
observable effects of the training loop (pushes to the variable container,
learner runs, replay-buffer clears, summary writes) become an event trace.
-/

namespace CircuitTraining

/-- Python exceptions that the embedded fragment can raise. -/
inductive PyErr where
  | zeroDivisionError
  | typeError
deriving DecidableEq

/-- Embedding of `compute_init_iteration` (train_ppo_lib.py lines 43-67).
The Python body is
`int(init_train_step * per_replica_batch_size * num_replicas_in_sync / sequence_length / num_episodes_per_iteration / num_epochs)`:
a chained true division of the integer product by the three divisors,
truncated toward zero by `int`.  Over the rationals the chained quotient
equals the quotient by the product of the divisors, and truncation toward
zero of that exact quotient is `Int.tdiv`; floating-point rounding is
modelled as exact arithmetic.  Division by zero is treated separately in
`compute_init_iterationExc`. -/
def compute_init_iteration (init_train_step sequence_length
    num_episodes_per_iteration num_epochs per_replica_batch_size
    num_replicas_in_sync : Int) : Int :=
  Int.tdiv (init_train_step * per_replica_batch_size * num_replicas_in_sync)
    (sequence_length * num_episodes_per_iteration * num_epochs)

/-- Embedding of `compute_init_iteration` with Python's failure modes made
explicit.  When `per_replica_batch_size` is `None` (the value the
configuration surface permits for full-sequence mode), the very first
operation `init_train_step * per_replica_batch_size` raises `TypeError`,
before any division is attempted; the function body has no branch on the
argument.  A zero divisor raises `ZeroDivisionError` at the corresponding
division. -/
def compute_init_iterationExc (init_train_step sequence_length
    num_episodes_per_iteration num_epochs : Int)
    (per_replica_batch_size : Option Int) (num_replicas_in_sync : Int) :
    Except PyErr Int :=
  match per_replica_batch_size with
  | none => .error .typeError
  | some b =>
    if sequence_length = 0 ∨ num_episodes_per_iteration = 0 ∨ num_epochs = 0
    then .error .zeroDivisionError
    else .ok (compute_init_iteration init_train_step sequence_length
        num_episodes_per_iteration num_epochs b num_replicas_in_sync)

/-- Observable effects of `train` (train_ppo_lib.py lines 70-274) on the two
network services.  `push ts mid` records the `train_step` and `model_id`
components of the snapshot sent to the variable container (the policy
component is opaque); `waitForData` is the `learner.wait_for_data()` call of
line 258; `run` is the `learner.run()` call of line 261; `clear` is the
`reverb_replay_train.clear()` call of line 268; `summary` stands for the
successful completion of the `tf.summary` writes of lines 269-274. -/
inductive Event where
  | push (train_step model_id : Int)
  | waitForData
  | run
  | clear
  | summary
deriving DecidableEq

/-- Mutable state threaded through the training loop: the shared `train_step`
and `model_id` counters, plus the accumulated event trace. -/
structure LoopState where
  train_step : Int
  model_id : Int
  trace : List Event
deriving DecidableEq

/-- Result of running `train`: the final loop state together with the
uncaught Python exception, if one was raised (`train` installs no handler,
so the first exception ends the run). -/
structure TrainOut where
  state : LoopState
  error : Option PyErr
deriving DecidableEq

/-- Python `range(a, b)` over `int`: the integers `a, a+1, ..., b-1`
(empty when `b ≤ a`). -/
def intRange (a b : Int) : List Int :=
  (List.range (b - a).toNat).map (fun k : Nat => a + (k : Int))

/-- Instrumentation that never raises. -/
def noInstrErr : Int → Option PyErr := fun _ => none

/-- One pass of the training-loop body (train_ppo_lib.py lines 251-274) for
each iteration index in the list, threading `train_step`, `model_id` and the
event trace exactly in source order: `wait_for_data` (line 258), `run`
(line 261), the steps-per-second computation (line 264), `push` (line 266),
`clear` (line 268), the summary writes (lines 269-274).

The bodies of `learner.wait_for_data` and `learner.run` live in
`circuit_training/learning/learner.py`, which is not under src/.
Modelled from the spec: `run` draws one iteration's worth of data, advances
the shared `train_step` by exactly `stepsPerRun`
(= `num_epochs * minibatches_per_epoch` gradient updates) and mutates
`model_id` once per completed iteration, immediately before the push, by
incrementing it; `wait_for_data` blocks until a batch is consumable and has
no effect on the training state.

`spsErr i` models an exception raised at iteration `i` by the
steps-per-second computation `num_steps / run_time` of line 264 (which runs
after `run` but before the push); `summaryErr i` models an exception raised
at iteration `i` by the summary writes of lines 269-274 (after the clear).
The source installs no exception handler, so a raised exception ends the
loop with the effects made so far. -/
def runLoop (stepsPerRun : Int) (spsErr summaryErr : Int → Option PyErr) :
    List Int → LoopState → TrainOut
  | [], s => ⟨s, none⟩
  | i :: rest, s =>
    match spsErr i with
    | some e => ⟨⟨s.train_step + stepsPerRun, s.model_id + 1,
        s.trace ++ [Event.waitForData, Event.run]⟩, some e⟩
    | none =>
      match summaryErr i with
      | some e => ⟨⟨s.train_step + stepsPerRun, s.model_id + 1,
          s.trace ++ [Event.waitForData, Event.run,
            Event.push (s.train_step + stepsPerRun) (s.model_id + 1),
            Event.clear]⟩, some e⟩
      | none => runLoop stepsPerRun spsErr summaryErr rest
          ⟨s.train_step + stepsPerRun, s.model_id + 1,
            s.trace ++ [Event.waitForData, Event.run,
              Event.push (s.train_step + stepsPerRun) (s.model_id + 1),
              Event.clear, Event.summary]⟩

/-- The training-loop body with line 258 (`learner.wait_for_data()`) removed
and everything else unchanged; used to compare against `runLoop`. -/
def runLoopNoWait (stepsPerRun : Int)
    (spsErr summaryErr : Int → Option PyErr) : List Int → LoopState → TrainOut
  | [], s => ⟨s, none⟩
  | i :: rest, s =>
    match spsErr i with
    | some e => ⟨⟨s.train_step + stepsPerRun, s.model_id + 1,
        s.trace ++ [Event.run]⟩, some e⟩
    | none =>
      match summaryErr i with
      | some e => ⟨⟨s.train_step + stepsPerRun, s.model_id + 1,
          s.trace ++ [Event.run,
            Event.push (s.train_step + stepsPerRun) (s.model_id + 1),
            Event.clear]⟩, some e⟩
      | none => runLoopNoWait stepsPerRun spsErr summaryErr rest
          ⟨s.train_step + stepsPerRun, s.model_id + 1,
            s.trace ++ [Event.run,
              Event.push (s.train_step + stepsPerRun) (s.model_id + 1),
              Event.clear, Event.summary]⟩

/-- Arguments of `train` that its observable behaviour depends on.
`per_replica_batch_size` is an `Option` because the configuration surface
permits `None` for full-sequence mode. -/
structure TrainArgs where
  sequence_length : Int
  per_replica_batch_size : Option Int
  num_epochs : Int
  num_iterations : Int
  num_episodes_per_iteration : Int
  init_train_step : Int
  num_replicas_in_sync : Int
deriving DecidableEq

/-- Embedding of `train` (train_ppo_lib.py lines 70-274), reduced to its
observable effects.  Line 126 computes `init_iteration` (which may raise);
lines 134-139 set `train_step := init_train_step` and
`model_id := init_iteration`; line 178 performs the initial push of the full
snapshot; lines 251-274 run the loop `for i in range(init_iteration,
num_iterations)`.  On a raise at line 126 nothing observable has happened:
the trace is empty and the counter fields of the returned state are dead
values.  Agent construction, the policy saver, the dataset plumbing and the
learner construction (lines 142-248) perform no pushes, clears or counter
mutations and are omitted. -/
def train (args : TrainArgs) (stepsPerRun : Int)
    (spsErr summaryErr : Int → Option PyErr) : TrainOut :=
  match compute_init_iterationExc args.init_train_step args.sequence_length
      args.num_episodes_per_iteration args.num_epochs
      args.per_replica_batch_size args.num_replicas_in_sync with
  | .error e => ⟨⟨args.init_train_step, 0, []⟩, some e⟩
  | .ok ii =>
    runLoop stepsPerRun spsErr summaryErr (intRange ii args.num_iterations)
      ⟨args.init_train_step, ii, [Event.push args.init_train_step ii]⟩

/-- The variant of `train` whose loop omits the `learner.wait_for_data()`
call of line 258, everything else unchanged. -/
def trainNoWait (args : TrainArgs) (stepsPerRun : Int)
    (spsErr summaryErr : Int → Option PyErr) : TrainOut :=
  match compute_init_iterationExc args.init_train_step args.sequence_length
      args.num_episodes_per_iteration args.num_epochs
      args.per_replica_batch_size args.num_replicas_in_sync with
  | .error e => ⟨⟨args.init_train_step, 0, []⟩, some e⟩
  | .ok ii =>
    runLoopNoWait stepsPerRun spsErr summaryErr
      (intRange ii args.num_iterations)
      ⟨args.init_train_step, ii, [Event.push args.init_train_step ii]⟩

/-- Test for the diagnostic `waitForData` event. -/
def Event.isWait : Event → Bool
  | .waitForData => true
  | _ => false

/-- The event blocks produced by `k` consecutive error-free passes of the
loop body, starting from counters `ts` and `mid`. -/
def cleanBlocks (stepsPerRun ts mid : Int) : Nat → List Event
  | 0 => []
  | Nat.succ k =>
    [Event.waitForData, Event.run,
      Event.push (ts + stepsPerRun) (mid + 1), Event.clear, Event.summary]
      ++ cleanBlocks stepsPerRun (ts + stepsPerRun) (mid + 1) k

/-! Helper lemmas. -/

/-- Truncating division by a positive divisor is monotone in the dividend. -/
theorem tdiv_le_tdiv_of_le {x y d : Int} (hd : 0 < d) (hxy : x ≤ y) :
    Int.tdiv x d ≤ Int.tdiv y d := by
  rcases le_or_lt 0 x with hx | hx
  · rw [Int.tdiv_eq_ediv hx (le_of_lt hd),
      Int.tdiv_eq_ediv (le_trans hx hxy) (le_of_lt hd)]
    exact Int.ediv_le_ediv hd hxy
  · rcases le_or_lt 0 y with hy | hy
    · have h1 : Int.tdiv x d ≤ 0 := by
        have h2 : 0 ≤ Int.tdiv (-x) d :=
          Int.tdiv_nonneg (by omega) (le_of_lt hd)
        have h3 := Int.neg_tdiv x d
        omega
      exact le_trans h1 (Int.tdiv_nonneg hy (le_of_lt hd))
    · have h := Int.ediv_le_ediv hd (show -y ≤ -x by omega)
      rw [← Int.tdiv_eq_ediv (by omega : (0:Int) ≤ -y) (le_of_lt hd),
        ← Int.tdiv_eq_ediv (by omega : (0:Int) ≤ -x) (le_of_lt hd)] at h
      rw [Int.neg_tdiv, Int.neg_tdiv] at h
      omega

/-- Python `range(a, b)` is empty when `b ≤ a`. -/
theorem intRange_nil (a b : Int) (h : b ≤ a) : intRange a b = [] := by
  unfold intRange
  rw [show (b - a).toNat = 0 from by omega]
  rfl

/-- Python `range(a, b)` peels its first element when `a < b`. -/
theorem intRange_cons (a b : Int) (h : a < b) :
    intRange a b = a :: intRange (a + 1) b := by
  unfold intRange
  rw [show (b - a).toNat = (b - (a + 1)).toNat + 1 from by omega,
    List.range_succ_eq_map]
  simp only [List.map_cons, List.map_map, Nat.cast_zero, add_zero]
  refine congrArg (List.cons a) (List.map_congr_left fun k _ => ?_)
  simp only [Function.comp_apply]
  push_cast
  ring

/-- Length of Python `range(a, b)`. -/
theorem intRange_length (a b : Int) :
    (intRange a b).length = (b - a).toNat := by
  unfold intRange
  rw [List.length_map, List.length_range]

/-- Membership in Python `range(a, b)`. -/
theorem mem_intRange {a b i : Int} (h1 : a ≤ i) (h2 : i < b) :
    i ∈ intRange a b := by
  unfold intRange
  rw [List.mem_map]
  exact ⟨(i - a).toNat, List.mem_range.mpr (by omega), by omega⟩

/-- Renormalizing the upper bound of `intRange` through `Int.toNat`. -/
theorem intRange_norm (a b : Int) :
    intRange a (a + ((b - a).toNat : Int)) = intRange a b := by
  unfold intRange
  rw [show (a + ((b - a).toNat : Int) - a).toNat = (b - a).toNat from by
    omega]

/-- With error-free instrumentation the loop runs every listed iteration,
advancing the counters once per iteration and appending one block of five
events per iteration. -/
theorem runLoop_clean (stepsPerRun : Int) (l : List Int) (s : LoopState) :
    runLoop stepsPerRun noInstrErr noInstrErr l s =
      ⟨⟨s.train_step + stepsPerRun * l.length, s.model_id + l.length,
        s.trace ++ cleanBlocks stepsPerRun s.train_step s.model_id l.length⟩,
        none⟩ := by
  induction l generalizing s with
  | nil => simp [runLoop, cleanBlocks]
  | cons i rest ih =>
    simp only [runLoop, noInstrErr]
    rw [ih]
    simp only [TrainOut.mk.injEq, LoopState.mk.injEq, List.length_cons,
      cleanBlocks]
    refine ⟨⟨?_, ?_, ?_⟩, trivial⟩
    · push_cast
      ring
    · push_cast
      ring
    · simp [List.append_assoc]

/-- The per-iteration blocks of an error-free run, written as a `flatMap`
over the iteration indices themselves. -/
theorem cleanBlocks_eq_flatMap (stepsPerRun ts ii : Int) (k : Nat) :
    cleanBlocks stepsPerRun ts ii k =
      (intRange ii (ii + (k : Int))).flatMap (fun i =>
        [Event.waitForData, Event.run,
          Event.push (ts + stepsPerRun * (i - ii + 1)) (i + 1),
          Event.clear, Event.summary]) := by
  induction k generalizing ts ii with
  | zero =>
    rw [intRange_nil _ _ (by omega)]
    rfl
  | succ k ih =>
    rw [intRange_cons _ _ (by omega : ii < ii + ((k : Nat) + 1 : Nat))]
    rw [List.flatMap_cons, cleanBlocks]
    rw [ih (ts + stepsPerRun) (ii + 1)]
    rw [show ii + 1 + (k : Int) = ii + ((k + 1 : Nat) : Int) from by
      push_cast; ring]
    congr 1
    · rw [show ii - ii + 1 = (1 : Int) from by ring]
      rw [mul_one]
    · congr 1
      funext i
      rw [show ts + stepsPerRun + stepsPerRun * (i - (ii + 1) + 1)
          = ts + stepsPerRun * (i - ii + 1) from by ring]

/-- Shape of a completed error-free `train` run: the initial push of
(`init_train_step`, `init_iteration`), followed by one
wait/run/push/clear/summary block per loop iteration, with no uncaught
exception; `train_step` advances by `stepsPerRun` per iteration and
`model_id` by one per iteration. -/
theorem train_clean_trace (args : TrainArgs) (stepsPerRun ii : Int)
    (hii : compute_init_iterationExc args.init_train_step
      args.sequence_length args.num_episodes_per_iteration args.num_epochs
      args.per_replica_batch_size args.num_replicas_in_sync = .ok ii) :
    train args stepsPerRun noInstrErr noInstrErr =
      ⟨⟨args.init_train_step
          + stepsPerRun * ((args.num_iterations - ii).toNat : Int),
        ii + ((args.num_iterations - ii).toNat : Int),
        Event.push args.init_train_step ii ::
          (intRange ii args.num_iterations).flatMap (fun i =>
            [Event.waitForData, Event.run,
              Event.push (args.init_train_step + stepsPerRun * (i - ii + 1))
                (i + 1),
              Event.clear, Event.summary])⟩, none⟩ := by
  simp only [train, hii]
  rw [runLoop_clean]
  rw [intRange_length]
  rw [cleanBlocks_eq_flatMap]
  rw [intRange_norm]
  rfl

/-- Any run of the loop only appends to the incoming trace. -/
theorem runLoop_trace_append (stepsPerRun : Int)
    (spsErr summaryErr : Int → Option PyErr) (l : List Int) (s : LoopState) :
    ∃ t, (runLoop stepsPerRun spsErr summaryErr l s).state.trace
      = s.trace ++ t := by
  induction l generalizing s with
  | nil => exact ⟨[], by simp [runLoop]⟩
  | cons i rest ih =>
    simp only [runLoop]
    cases hsp : spsErr i with
    | some e => exact ⟨_, rfl⟩
    | none =>
      cases hsu : summaryErr i with
      | some e => exact ⟨_, rfl⟩
      | none =>
        obtain ⟨t, ht⟩ := ih ⟨s.train_step + stepsPerRun, s.model_id + 1,
          s.trace ++ [Event.waitForData, Event.run,
            Event.push (s.train_step + stepsPerRun) (s.model_id + 1),
            Event.clear, Event.summary]⟩
        exact ⟨_, by rw [ht]; rw [List.append_assoc]⟩

/-- Removing the diagnostic `wait_for_data` call changes nothing but the
`waitForData` entries of the trace: counters, error and the remaining
events coincide. -/
theorem runLoopNoWait_eq (stepsPerRun : Int)
    (spsErr summaryErr : Int → Option PyErr) (l : List Int) (s : LoopState) :
    runLoopNoWait stepsPerRun spsErr summaryErr l
      ⟨s.train_step, s.model_id, s.trace.filter (fun ev => ! ev.isWait)⟩
    = ⟨⟨(runLoop stepsPerRun spsErr summaryErr l s).state.train_step,
        (runLoop stepsPerRun spsErr summaryErr l s).state.model_id,
        ((runLoop stepsPerRun spsErr summaryErr l s).state.trace).filter
          (fun ev => ! ev.isWait)⟩,
      (runLoop stepsPerRun spsErr summaryErr l s).error⟩ := by
  induction l generalizing s with
  | nil => simp [runLoop, runLoopNoWait]
  | cons i rest ih =>
    simp only [runLoop, runLoopNoWait]
    cases hsp : spsErr i with
    | some e => simp [Event.isWait, List.filter_append]
    | none =>
      cases hsu : summaryErr i with
      | some e => simp [Event.isWait, List.filter_append]
      | none =>
        have h := ih ⟨s.train_step + stepsPerRun, s.model_id + 1,
          s.trace ++ [Event.waitForData, Event.run,
            Event.push (s.train_step + stepsPerRun) (s.model_id + 1),
            Event.clear, Event.summary]⟩
        simp only [List.filter_append] at h
        simp only [List.filter_cons, Event.isWait, Bool.not_true,
          Bool.not_false, List.filter_nil] at h
        simp only [List.filter_append, List.filter_cons, Event.isWait,
          Bool.not_true, Bool.not_false, List.filter_nil]
        exact h

/-! Theorems settling the claims. -/

/-- C3: on its sensible domain (non-negative step, batch size and replica
count, positive divisors) `compute_init_iteration` returns the floor of
`init_train_step * per_replica_batch_size * num_replicas_in_sync` over
`sequence_length * num_episodes_per_iteration * num_epochs`; in particular
it returns `1` at `init_train_step = 1600` and `0` at `init_train_step = 0`
for the configuration `sequence_length = 100`,
`num_episodes_per_iteration = 1024`, `num_epochs = 4`,
`per_replica_batch_size = 32`, `num_replicas_in_sync = 8`. -/
theorem compute_init_iteration_floor (a s e n b r : Int) (ha : 0 ≤ a)
    (hb : 0 ≤ b) (hr : 0 ≤ r) (hs : 0 < s) (he : 0 < e) (hn : 0 < n) :
    compute_init_iteration a s e n b r = Int.fdiv (a * b * r) (s * e * n)
    ∧ compute_init_iteration 1600 100 1024 4 32 8 = 1
    ∧ compute_init_iteration 0 100 1024 4 32 8 = 0 := by
  refine ⟨?_, by decide, by decide⟩
  have hd : (0 : Int) < s * e * n := by positivity
  have hnum : (0 : Int) ≤ a * b * r := by positivity
  rw [compute_init_iteration, Int.tdiv_eq_ediv hnum (le_of_lt hd),
    Int.fdiv_eq_ediv _ (le_of_lt hd)]

/-- Witness for C3 at the spec's concrete configuration. -/
theorem compute_init_iteration_floor_witness :
    compute_init_iteration 1600 100 1024 4 32 8 = Int.fdiv 409600 409600
    ∧ compute_init_iteration 1600 100 1024 4 32 8 = 1
    ∧ compute_init_iteration 0 100 1024 4 32 8 = 0 := by
  have h := compute_init_iteration_floor 1600 100 1024 4 32 8
    (by decide) (by decide) (by decide) (by decide) (by decide) (by decide)
  exact ⟨h.1, h.2.1, h.2.2⟩

/-- C5 counterexample: with the divisors fixed at the positive value `1` and
`per_replica_batch_size` fixed at `-1`, `compute_init_iteration` strictly
decreases when `init_train_step` grows from `0` to `1` (Python:
`compute_init_iteration(0, 1, 1, 1, -1, 1) == 0` while
`compute_init_iteration(1, 1, 1, 1, -1, 1) == int(-1.0) == -1`), so the
claimed monotonicity fails for a fixed negative batch size even though all
positive-divisor preconditions hold. -/
theorem compute_init_iteration_not_monotone :
    (0 : Int) < 1 ∧ (0 : Int) ≤ 1
    ∧ compute_init_iteration 1 1 1 1 (-1) 1
      < compute_init_iteration 0 1 1 1 (-1) 1 := by
  decide

/-- C5 amended: `compute_init_iteration` is monotonically non-decreasing in
`init_train_step` with the other parameters fixed, given the
positive-divisor preconditions and additionally that the fixed product
`per_replica_batch_size * num_replicas_in_sync` is non-negative. -/
theorem compute_init_iteration_monotone (a a' s e n b r : Int)
    (hbr : 0 ≤ b * r) (hs : 0 < s) (he : 0 < e) (hn : 0 < n) (hab : a ≤ a') :
    compute_init_iteration a s e n b r
      ≤ compute_init_iteration a' s e n b r := by
  have hd : (0 : Int) < s * e * n := by positivity
  have hnum : a * b * r ≤ a' * b * r := by
    rw [mul_assoc, mul_assoc]
    exact mul_le_mul_of_nonneg_right hab hbr
  exact tdiv_le_tdiv_of_le hd hnum

/-- Witness for the amended C5. -/
theorem compute_init_iteration_monotone_witness :
    (0 : Int) ≤ 32 * 8 ∧ (0 : Int) < 100 ∧ (0 : Int) < 1024 ∧ (0 : Int) < 4
    ∧ (0 : Int) ≤ 1600
    ∧ compute_init_iteration 0 100 1024 4 32 8
      ≤ compute_init_iteration 1600 100 1024 4 32 8 :=
  ⟨by decide, by decide, by decide, by decide, by decide,
    compute_init_iteration_monotone 0 1600 100 1024 4 32 8
      (by decide) (by decide) (by decide) (by decide) (by decide)⟩

/-- C6 counterexample: with all three divisors positive (equal to `1`),
`compute_init_iteration (-1) 1 1 1 1 1` evaluates to `-1`, which is
negative, so the result is not non-negative for every value of the
remaining arguments (Python: `int(-1 * 1 * 1 / 1 / 1 / 1) == -1`). -/
theorem compute_init_iteration_negative_result :
    (0 : Int) < 1 ∧ compute_init_iteration (-1) 1 1 1 1 1 < 0 := by
  decide

/-- C6 amended: the result of `compute_init_iteration` is non-negative
whenever the divisors are positive and additionally the dividend
`init_train_step * per_replica_batch_size * num_replicas_in_sync` is
non-negative (in particular whenever those three are all non-negative). -/
theorem compute_init_iteration_nonneg (a s e n b r : Int)
    (hnum : 0 ≤ a * b * r) (hs : 0 < s) (he : 0 < e) (hn : 0 < n) :
    0 ≤ compute_init_iteration a s e n b r :=
  Int.tdiv_nonneg hnum (by positivity)

/-- Witness for the amended C6. -/
theorem compute_init_iteration_nonneg_witness :
    (0 : Int) ≤ 1600 * 32 * 8 ∧ (0 : Int) < 100
    ∧ 0 ≤ compute_init_iteration 1600 100 1024 4 32 8 :=
  ⟨by decide, by decide,
    compute_init_iteration_nonneg 1600 100 1024 4 32 8
      (by decide) (by decide) (by decide) (by decide)⟩

/-- C10: for every `init_train_step` (and all other parameters), calling
`compute_init_iteration` with `per_replica_batch_size = None` raises
`TypeError` at the first multiplication instead of returning an iteration
index: the function has no `None`-handling branch. -/
theorem compute_init_iteration_none_raises (a s e n r : Int) :
    compute_init_iterationExc a s e n none r = .error .typeError := rfl

/-- C2: in an error-free run, each loop iteration performs exactly, and in
this strict order, a `wait_for_data`, then a `learner.run`, then a
variable-container push, then a replay-buffer clear (followed by the summary
writes); the whole trace is the initial push followed by exactly one such
block per iteration index, so `clear` is invoked exactly once per iteration,
after that iteration's training and before the next iteration's events. -/
theorem train_phase_order (args : TrainArgs) (stepsPerRun ii : Int)
    (hii : compute_init_iterationExc args.init_train_step
      args.sequence_length args.num_episodes_per_iteration args.num_epochs
      args.per_replica_batch_size args.num_replicas_in_sync = .ok ii) :
    (train args stepsPerRun noInstrErr noInstrErr).state.trace =
      Event.push args.init_train_step ii ::
        (intRange ii args.num_iterations).flatMap (fun i =>
          [Event.waitForData, Event.run,
            Event.push (args.init_train_step + stepsPerRun * (i - ii + 1))
              (i + 1),
            Event.clear, Event.summary])
    ∧ (train args stepsPerRun noInstrErr noInstrErr).error = none := by
  rw [train_clean_trace args stepsPerRun ii hii]
  exact ⟨rfl, rfl⟩

/-- Witness for C2 on a two-iteration run. -/
theorem train_phase_order_witness :
    (train ⟨1, some 2, 1, 2, 1, 0, 1⟩ 3 noInstrErr noInstrErr).state.trace =
      Event.push 0 0 :: (intRange 0 2).flatMap (fun i =>
        [Event.waitForData, Event.run, Event.push (0 + 3 * (i - 0 + 1)) (i + 1),
          Event.clear, Event.summary])
    ∧ (train ⟨1, some 2, 1, 2, 1, 0, 1⟩ 3 noInstrErr noInstrErr).error
      = none :=
  train_phase_order ⟨1, some 2, 1, 2, 1, 0, 1⟩ 3 0 rfl

/-- C1 counterexample: a concrete error-free run with `init_train_step = 0`
(so `init_iteration = 0`) and one loop iteration, `i = 0`.  The push
performed by loop iteration `0` records `model_id = 1`, not the iteration
index `0`: `model_id` is incremented once by `learner.run` before the push,
so at the moment the push for iteration `i` completes `model_id = i + 1`.
The second conjunct checks that no event after the initial push carries
`model_id = 0` at all. -/
theorem loop_push_model_id_cex :
    (train ⟨100, some 32, 4, 1, 1024, 0, 8⟩ 4096 noInstrErr
        noInstrErr).state.trace
      = [Event.push 0 0, Event.waitForData, Event.run, Event.push 4096 1,
          Event.clear, Event.summary]
    ∧ ((train ⟨100, some 32, 4, 1, 1024, 0, 8⟩ 4096 noInstrErr
        noInstrErr).state.trace.drop 1).all
        (fun ev => match ev with
          | Event.push _ mid => decide (mid ≠ 0)
          | _ => true) = true := by
  decide

/-- C1 amended: at initialization (the first event) the pushed `model_id`
equals the computed `init_iteration`; the push completed by loop iteration
`i` carries `model_id = i + 1` (one more than the loop index: the number of
completed iterations), together with the `train_step` value reached by that
iteration's run. -/
theorem loop_push_model_id (args : TrainArgs) (stepsPerRun ii : Int)
    (hii : compute_init_iterationExc args.init_train_step
      args.sequence_length args.num_episodes_per_iteration args.num_epochs
      args.per_replica_batch_size args.num_replicas_in_sync = .ok ii) :
    (train args stepsPerRun noInstrErr noInstrErr).state.trace.head?
      = some (Event.push args.init_train_step ii)
    ∧ ∀ i : Int, ii ≤ i → i < args.num_iterations →
        Event.push (args.init_train_step + stepsPerRun * (i - ii + 1)) (i + 1)
          ∈ (train args stepsPerRun noInstrErr noInstrErr).state.trace := by
  rw [train_clean_trace args stepsPerRun ii hii]
  refine ⟨rfl, fun i h1 h2 => ?_⟩
  exact List.mem_cons_of_mem _
    (List.mem_flatMap.mpr ⟨i, mem_intRange h1 h2, by simp⟩)

/-- Witness for the amended C1. -/
theorem loop_push_model_id_witness :
    (train ⟨1, some 1, 1, 1, 1, 0, 1⟩ 5 noInstrErr
        noInstrErr).state.trace.head? = some (Event.push 0 0)
    ∧ Event.push (0 + 5 * (0 - 0 + 1)) (0 + 1)
      ∈ (train ⟨1, some 1, 1, 1, 1, 0, 1⟩ 5 noInstrErr
          noInstrErr).state.trace := by
  have h := loop_push_model_id ⟨1, some 1, 1, 1, 1, 0, 1⟩ 5 0 rfl
  exact ⟨h.1, h.2 0 (by decide) (by decide)⟩

/-- C9: before the first loop iteration, `train` pushes the snapshot once,
with `train_step = init_train_step` and `model_id` equal to the computed
`init_iteration` — this push is the first event of every run, for any
instrumentation behaviour; and when `init_iteration ≥ num_iterations` the
loop body never executes and that initial push is the entire trace. -/
theorem initial_push (args : TrainArgs) (stepsPerRun ii : Int)
    (spsErr summaryErr : Int → Option PyErr)
    (hii : compute_init_iterationExc args.init_train_step
      args.sequence_length args.num_episodes_per_iteration args.num_epochs
      args.per_replica_batch_size args.num_replicas_in_sync = .ok ii) :
    (train args stepsPerRun spsErr summaryErr).state.trace.head?
      = some (Event.push args.init_train_step ii)
    ∧ (args.num_iterations ≤ ii →
        train args stepsPerRun spsErr summaryErr =
          ⟨⟨args.init_train_step, ii, [Event.push args.init_train_step ii]⟩,
            none⟩) := by
  constructor
  · simp only [train, hii]
    obtain ⟨t, ht⟩ := runLoop_trace_append stepsPerRun spsErr summaryErr
      (intRange ii args.num_iterations)
      ⟨args.init_train_step, ii, [Event.push args.init_train_step ii]⟩
    rw [ht]
    rfl
  · intro hN
    simp only [train, hii]
    rw [intRange_nil ii args.num_iterations hN]
    rfl

/-- Witness for C9: a restarted run (`init_train_step = 7`, divisors `1`,
so `init_iteration = 7`) with `num_iterations = 0`, whose loop body never
executes: the whole trace is the single initial push of `(7, 7)`. -/
theorem initial_push_witness :
    (train ⟨1, some 1, 1, 0, 1, 7, 1⟩ 2 noInstrErr
        noInstrErr).state.trace.head? = some (Event.push 7 7)
    ∧ train ⟨1, some 1, 1, 0, 1, 7, 1⟩ 2 noInstrErr noInstrErr =
        ⟨⟨7, 7, [Event.push 7 7]⟩, none⟩ := by
  have h := initial_push ⟨1, some 1, 1, 0, 1, 7, 1⟩ 2 7 noInstrErr
    noInstrErr rfl
  exact ⟨h.1, h.2 (by decide)⟩

/-- C4 counterexample: with the non-positive configuration value
`sequence_length = -1` (and valid remaining arguments), `train` does not
detect any configuration error and does not fail: it computes
`init_iteration = 0`, enters the training loop, runs it to completion and
returns without error — the trace contains a `clear`, so the loop body
executed. -/
theorem nonpositive_config_not_detected :
    (train ⟨-1, some 1, 1, 1, 1, 0, 1⟩ 1 noInstrErr noInstrErr).error = none
    ∧ Event.clear
      ∈ (train ⟨-1, some 1, 1, 1, 1, 0, 1⟩ 1 noInstrErr
          noInstrErr).state.trace := by
  decide

/-- C4 amended: a zero `sequence_length`, `num_episodes_per_iteration` or
`num_epochs` makes `train` fail before the loop starts — before any push —
but with an undescriptive arithmetic `ZeroDivisionError` raised by
`compute_init_iteration`, not a descriptive configuration error; negative
values are not detected at all (see the counterexample run, which enters
and completes the loop normally). -/
theorem zero_config_zero_division (args : TrainArgs) (stepsPerRun b : Int)
    (spsErr summaryErr : Int → Option PyErr)
    (hb : args.per_replica_batch_size = some b)
    (hzero : args.sequence_length = 0
      ∨ args.num_episodes_per_iteration = 0 ∨ args.num_epochs = 0) :
    (train args stepsPerRun spsErr summaryErr).error
      = some PyErr.zeroDivisionError
    ∧ (train args stepsPerRun spsErr summaryErr).state.trace = [] := by
  simp only [train, compute_init_iterationExc, hb]
  rw [if_pos hzero]
  exact ⟨rfl, rfl⟩

/-- Witness for the amended C4 at `sequence_length = 0`. -/
theorem zero_config_zero_division_witness :
    (train ⟨0, some 32, 4, 10, 1024, 0, 8⟩ 1 noInstrErr noInstrErr).error
      = some PyErr.zeroDivisionError
    ∧ (train ⟨0, some 32, 4, 10, 1024, 0, 8⟩ 1 noInstrErr
        noInstrErr).state.trace = [] :=
  zero_config_zero_division ⟨0, some 32, 4, 10, 1024, 0, 8⟩ 1 32 noInstrErr
    noInstrErr rfl (Or.inl rfl)

/-- C7 counterexample: a two-iteration run in which the summary write of
iteration `0` raises.  The exception is not swallowed: `train` ends with
that error, and no event of iteration `1` occurs (the trace stops after
iteration `0`'s clear), so a timing/observability failure does abort the
training loop instead of training proceeding to the next iteration. -/
theorem instr_failure_aborts_cex :
    (train ⟨1, some 1, 1, 2, 1, 0, 1⟩ 1 noInstrErr
        (fun i => if i = 0 then some PyErr.typeError else none)).error
      = some PyErr.typeError
    ∧ (train ⟨1, some 1, 1, 2, 1, 0, 1⟩ 1 noInstrErr
        (fun i => if i = 0 then some PyErr.typeError else none)).state.trace
      = [Event.push 0 0, Event.waitForData, Event.run, Event.push 1 1,
          Event.clear] := by
  decide

/-- C7 amended: `train` installs no exception handler, so an instrumentation
failure at the first executed iteration propagates and aborts the run with
the effects made so far: a steps-per-second failure (line 264) aborts before
that iteration's push and clear; a summary-write failure (lines 269-274)
aborts after the clear; in both cases no later iteration runs. -/
theorem instr_failure_aborts (args : TrainArgs) (stepsPerRun ii : Int)
    (e : PyErr)
    (hii : compute_init_iterationExc args.init_train_step
      args.sequence_length args.num_episodes_per_iteration args.num_epochs
      args.per_replica_batch_size args.num_replicas_in_sync = .ok ii)
    (hlt : ii < args.num_iterations) :
    train args stepsPerRun (fun i => if i = ii then some e else none)
        noInstrErr
      = ⟨⟨args.init_train_step + stepsPerRun, ii + 1,
          [Event.push args.init_train_step ii, Event.waitForData,
            Event.run]⟩, some e⟩
    ∧ train args stepsPerRun noInstrErr
        (fun i => if i = ii then some e else none)
      = ⟨⟨args.init_train_step + stepsPerRun, ii + 1,
          [Event.push args.init_train_step ii, Event.waitForData, Event.run,
            Event.push (args.init_train_step + stepsPerRun) (ii + 1),
            Event.clear]⟩, some e⟩ := by
  constructor
  · simp only [train, hii]
    rw [intRange_cons ii args.num_iterations hlt]
    simp [runLoop]
  · simp only [train, hii]
    rw [intRange_cons ii args.num_iterations hlt]
    simp [runLoop, noInstrErr]

/-- Witness for the amended C7. -/
theorem instr_failure_aborts_witness :
    train ⟨1, some 1, 1, 3, 1, 0, 1⟩ 2
        (fun i => if i = 0 then some PyErr.zeroDivisionError else none)
        noInstrErr
      = ⟨⟨2, 1, [Event.push 0 0, Event.waitForData, Event.run]⟩,
          some PyErr.zeroDivisionError⟩
    ∧ train ⟨1, some 1, 1, 3, 1, 0, 1⟩ 2 noInstrErr
        (fun i => if i = 0 then some PyErr.zeroDivisionError else none)
      = ⟨⟨2, 1, [Event.push 0 0, Event.waitForData, Event.run,
          Event.push 2 1, Event.clear]⟩, some PyErr.zeroDivisionError⟩ := by
  have h := instr_failure_aborts ⟨1, some 1, 1, 3, 1, 0, 1⟩ 2 0
    PyErr.zeroDivisionError rfl (by decide)
  exact ⟨h.1, h.2⟩

/-- C8: the `wait_for_data` call is strictly diagnostic: for every
configuration, every learner behaviour and every instrumentation behaviour,
the run of `train` and the run of the loop with the call removed have the
same final `train_step`, the same final `model_id`, the same uncaught error,
and identical traces once the diagnostic `waitForData` entries are erased —
the sequence of run/push/clear effects is unchanged. -/
theorem wait_for_data_diagnostic (args : TrainArgs) (stepsPerRun : Int)
    (spsErr summaryErr : Int → Option PyErr) :
    (trainNoWait args stepsPerRun spsErr summaryErr).state.train_step
      = (train args stepsPerRun spsErr summaryErr).state.train_step
    ∧ (trainNoWait args stepsPerRun spsErr summaryErr).state.model_id
      = (train args stepsPerRun spsErr summaryErr).state.model_id
    ∧ (trainNoWait args stepsPerRun spsErr summaryErr).error
      = (train args stepsPerRun spsErr summaryErr).error
    ∧ (trainNoWait args stepsPerRun spsErr summaryErr).state.trace
      = ((train args stepsPerRun spsErr summaryErr).state.trace).filter
          (fun ev => ! ev.isWait) := by
  cases hc : compute_init_iterationExc args.init_train_step
      args.sequence_length args.num_episodes_per_iteration args.num_epochs
      args.per_replica_batch_size args.num_replicas_in_sync with
  | error e =>
    refine ⟨?_, ?_, ?_, ?_⟩ <;> (simp only [train, trainNoWait, hc]; try rfl)
  | ok ii =>
    have h := runLoopNoWait_eq stepsPerRun spsErr summaryErr
      (intRange ii args.num_iterations)
      ⟨args.init_train_step, ii, [Event.push args.init_train_step ii]⟩
    simp only [List.filter_cons, List.filter_nil, Event.isWait,
      Bool.not_false, if_true] at h
    refine ⟨?_, ?_, ?_, ?_⟩ <;>
      (simp only [train, trainNoWait, hc]; rw [h]; try rfl)

end CircuitTraining
